import Mathlib

/-!
Shallow embedding of the billing-cycle engine of the `budget_app` Django
application (files `budget_app/forms.py`, `budget_app/views.py`,
`budget_app/models.py`), together with theorems settling the spec claims.

Conventions of the embedding:
* `YYYY-MM` keys are modelled as a `YM` structure `(year, month)`; for
  zero-padded keys, Python string comparison (`year_month__gte`) coincides
  with lexicographic comparison on `(year, month)`, modelled by `ymLe`.
* Calendar dates are `CalDate` triples `(year, month, day)`.
* Money amounts are `Nat` (the forms enforce `min 0`, and
  `DefaultChargeOverride.amount` is a `PositiveIntegerField`); USD amounts
  (Python `Decimal`) are modelled as `Option Nat` in cents, which is enough
  for the claims, none of which computes with USD values.
* Fallible/optional Python values (`None`) are `Option`.
-/

namespace BudgetApp

/-- A `YYYY-MM` year-month key. -/
structure YM where
  year : Nat
  month : Nat
deriving DecidableEq, Repr

/-- A calendar date. -/
structure CalDate where
  year : Nat
  month : Nat
  day : Nat
deriving DecidableEq, Repr

/-- Gregorian leap-year test (Python `calendar.isleap`). -/
def isLeapYear (y : Nat) : Bool :=
  (y % 4 == 0 && y % 100 != 0) || y % 400 == 0

/-- Number of days in a month (Python `calendar.monthrange(y, m)[1]`). -/
def daysInMonth (y m : Nat) : Nat :=
  if m = 2 then (if isLeapYear y then 29 else 28)
  else if m = 4 ∨ m = 6 ∨ m = 9 ∨ m = 11 then 30
  else 31

/-- Spec §4.1 `addMonths`: canonical month addition with year rollover.
This is the specification-side yardstick for statements of the form
"billing month = usage month + n months"; the code-side computations are
proved equal to it. -/
def addMonths (m : YM) (n : Nat) : YM :=
  ⟨m.year + (m.month - 1 + n) / 12, (m.month - 1 + n) % 12 + 1⟩

/-- Lexicographic order on year-month keys; for zero-padded `YYYY-MM`
strings this is exactly Python string comparison, as used by the
`year_month__gte` queryset filter. -/
def ymLe (a b : YM) : Bool :=
  decide (a.year < b.year ∨ (a.year = b.year ∧ a.month ≤ b.month))

/-- Subset of the `MonthlyPlanDefault` model (`models.py`) consulted by the
billing computations: the card-policy registry entry for one card.
`is_end_of_month = true` is the `EndOfMonth` closing rule; otherwise
`closing_day = some n` is the `DayOfMonth(n)` rule (the field is nullable
for non-credit-card rows). -/
structure MonthlyPlanDefault where
  is_end_of_month : Bool
  closing_day : Option Nat
deriving DecidableEq, Repr

/-- The `while billing_month > 12: billing_month -= 12; billing_year += 1`
normalization loop of `calculate_billing_month` (`forms.py` lines 686-689). -/
def normalizeBM (year bm : Nat) : YM :=
  if h : bm > 12 then normalizeBM (year + 1) (bm - 12) else ⟨year, bm⟩
termination_by bm
decreasing_by omega

/-- `calculate_billing_month(usage_month, card_type, split_part)`
(`forms.py` lines 652-691).  The database lookup
`MonthlyPlanDefault.objects.filter(key=card_type, is_active=True).first()`
is modelled by passing its result (`Option MonthlyPlanDefault`) directly;
the `YYYY-MM` string is passed as a parsed `YM`. -/
def calculate_billing_month (usage : YM) (card_default : Option MonthlyPlanDefault)
    (split_part : Option Nat) : YM :=
  let bm : Nat :=
    match card_default with
    | some cd => if cd.is_end_of_month then usage.month + 1 else usage.month + 2
    | none => usage.month + 1
  let bm : Nat := if split_part = some 2 then bm + 1 else bm
  normalizeBM usage.year bm

/-- Split allocation of `CreditEstimateForm.save` (`forms.py` lines 732-736):
`second_payment = (total_amount // 2) // 100 * 100`,
`first_payment = total_amount - second_payment`; returned as
`(first, second)`. -/
def splitAmount (total : Nat) : Nat × Nat :=
  let second_payment := total / 2 / 100 * 100
  (total - second_payment, second_payment)

/-- Per-part split amount of `DefaultEntry.__init__` (`views.py` lines
1276-1284): `second_payment = (total_amount // 2) // 100 * 100`; part 2
gets `second_payment`, part 1 gets the remainder. -/
def defaultEntrySplitAmount (total : Nat) (split_part : Nat) : Nat :=
  let second_payment := total / 2 / 100 * 100
  if split_part = 2 then second_payment else total - second_payment

/-- Per-part split amount of `DefaultEstimate.__init__` (`views.py` lines
3263-3271), textually the same rule as `DefaultEntry`. -/
def defaultEstimateSplitAmount (total : Nat) (split_part : Nat) : Nat :=
  let second_payment := total / 2 / 100 * 100
  if split_part = 2 then second_payment else total - second_payment

/-- `get_bonus_month_from_date` (`forms.py` lines 7-66), on an
already-parsed date: the billing `YYYY-MM` of a bonus purchase, or `none`
for the two ineligible gaps. -/
def get_bonus_month_from_date (y m d : Nat) : Option YM :=
  if m = 6 ∧ d ≥ 6 then none
  else if m = 7 ∧ d ≤ 5 then none
  else if m = 11 ∧ d ≥ 6 then none
  else if m = 12 ∧ d ≤ 5 then none
  else if m = 12 ∧ d ≥ 6 then some ⟨y + 1, 8⟩
  else if 1 ≤ m ∧ m ≤ 5 then some ⟨y, 8⟩
  else if m = 6 ∧ d ≤ 5 then some ⟨y, 8⟩
  else if m = 7 ∧ d ≥ 6 then some ⟨y + 1, 1⟩
  else if 8 ≤ m ∧ m ≤ 10 then some ⟨y + 1, 1⟩
  else if m = 11 ∧ d ≤ 5 then some ⟨y + 1, 1⟩
  else none

/-- `get_bonus_due_date_from_purchase` (`forms.py` lines 69-113): the fixed
bonus payment date (August 4 or January 4), or `none` for the gaps. -/
def get_bonus_due_date_from_purchase (y m d : Nat) : Option CalDate :=
  if m = 6 ∧ d ≥ 6 then none
  else if m = 7 ∧ d ≤ 5 then none
  else if m = 11 ∧ d ≥ 6 then none
  else if m = 12 ∧ d ≤ 5 then none
  else if m = 12 ∧ d ≥ 6 then some ⟨y + 1, 8, 4⟩
  else if 1 ≤ m ∧ m ≤ 5 then some ⟨y, 8, 4⟩
  else if m = 6 ∧ d ≤ 5 then some ⟨y, 8, 4⟩
  else if m = 7 ∧ d ≥ 6 then some ⟨y + 1, 1, 4⟩
  else if 8 ≤ m ∧ m ≤ 10 then some ⟨y + 1, 1, 4⟩
  else if m = 11 ∧ d ≤ 5 then some ⟨y + 1, 1, 4⟩
  else none

/-- Winter bonus window of the spec (§4.3): December 6 through June 5. -/
def inWinterWindow (m d : Nat) : Bool :=
  decide ((m = 12 ∧ 6 ≤ d) ∨ (1 ≤ m ∧ m ≤ 5) ∨ (m = 6 ∧ d ≤ 5))

/-- Summer bonus window of the spec (§4.3): July 6 through November 5. -/
def inSummerWindow (m d : Nat) : Bool :=
  decide ((m = 7 ∧ 6 ≤ d) ∨ (8 ≤ m ∧ m ≤ 10) ∨ (m = 11 ∧ d ≤ 5))

/-- First ineligible gap of the spec (§4.3): June 6 through July 5. -/
def inGapJun (m d : Nat) : Bool :=
  decide ((m = 6 ∧ 6 ≤ d) ∨ (m = 7 ∧ d ≤ 5))

/-- Second ineligible gap of the spec (§4.3): November 6 through December 5. -/
def inGapNov (m d : Nat) : Bool :=
  decide ((m = 11 ∧ 6 ≤ d) ∨ (m = 12 ∧ d ≤ 5))

/-- Single rollover step used repeatedly in `CreditEstimateForm.save`
(`forms.py`, e.g. lines 597-601): `if billing_month > 12: billing_month = 1;
billing_year += 1`. -/
def rollOverOnce (y m : Nat) : YM :=
  if m > 12 then ⟨y + 1, 1⟩ else ⟨y, m⟩

/-- Usage-month (`year_month`) and billing-month computation of
`CreditEstimateForm.save` for a purchase with a purchase date
(`forms.py` lines 566-649), non-bonus path.  The card lookup result is
passed as `Option MonthlyPlanDefault`.  Python truthiness of
`card_default.closing_day` (`None` and `0` are falsy) is modelled
explicitly. -/
def save_usage_and_billing (pd : CalDate) (card_default : Option MonthlyPlanDefault) :
    YM × YM :=
  match card_default with
  | none => (⟨pd.year, pd.month⟩, rollOverOnce pd.year (pd.month + 1))
  | some cd =>
    let closing_day : Option Nat :=
      if cd.is_end_of_month then some 31
      else match cd.closing_day with
        | some n => if n ≠ 0 then some n else none
        | none => none
    match closing_day with
    | none => (⟨pd.year, pd.month⟩, rollOverOnce pd.year (pd.month + 1))
    | some n =>
      if cd.is_end_of_month then
        (⟨pd.year, pd.month⟩, rollOverOnce pd.year (pd.month + 1))
      else
        let closing : YM :=
          if pd.day ≤ n then ⟨pd.year, pd.month⟩
          else rollOverOnce pd.year (pd.month + 1)
        let usage : YM :=
          if closing.month - 1 < 1 then ⟨closing.year - 1, 12⟩
          else ⟨closing.year, closing.month - 1⟩
        (usage, rollOverOnce closing.year (closing.month + 1))

/-- Stored `year_month` of a saved purchase with a purchase date: the bonus
branch (`forms.py` lines 694-698) overwrites it with the purchase month;
otherwise it is the value computed by the closing-day logic above. -/
def save_year_month (pd : CalDate) (is_bonus : Bool)
    (card_default : Option MonthlyPlanDefault) : YM :=
  if is_bonus then ⟨pd.year, pd.month⟩ else (save_usage_and_billing pd card_default).1

/-- The `CreditDefault` model (`models.py` lines 427-445): a recurring
charge template.  `usd_amount` (a Python `Decimal`) is modelled in cents. -/
structure CreditDefault where
  id : Nat
  card_type : String
  amount : Nat
  is_usd : Bool
  usd_amount : Option Nat
  payment_day : Nat
  is_active : Bool
  apply_odd_months_only : Bool
deriving DecidableEq, Repr

/-- The `DefaultChargeOverride` model (`models.py` lines 466-496): the
per-usage-month snapshot of a recurring charge template, unique per
(template, usage month) by the `unique_together` constraint. -/
structure DefaultChargeOverride where
  amount : Nat
  card_type : String
  is_split_payment : Bool
  is_usd : Bool
  usd_amount : Option Nat
  purchase_date_override : Option CalDate
deriving DecidableEq, Repr

/-- The snapshot table, keyed by (template id, usage month) as in
`override_map` of `credit_estimate_list` (`views.py`). -/
abbrev OverrideMap := List ((Nat × YM) × DefaultChargeOverride)

/-- Lookup in the snapshot table by (template id, usage month) key. -/
def lookupOverride : OverrideMap → Nat × YM → Option DefaultChargeOverride
  | [], _ => none
  | kv :: rest, k => if kv.1 = k then some kv.2 else lookupOverride rest k

/-- The snapshot values seeded from a template by the first
materialization (`views.py` lines 1186-1194): amount and card are copied
from the template, `is_split_payment` starts false, and no purchase-date
override is set. -/
def seedOverride (d : CreditDefault) : DefaultChargeOverride :=
  { amount := d.amount, card_type := d.card_type, is_split_payment := false,
    is_usd := d.is_usd, usd_amount := d.usd_amount, purchase_date_override := none }

/-- Lazy materialization of a snapshot for a (template, usage-month) pair
(`views.py` lines 1180-1204): if a snapshot already exists it is left
untouched, otherwise a new one seeded from the template is created. -/
def materializeOverride (d : CreditDefault) (ym : YM) (m : OverrideMap) : OverrideMap :=
  match lookupOverride m (d.id, ym) with
  | some _ => m
  | none => ((d.id, ym), seedOverride d) :: m

/-- Template-edit propagation (`views.py` lines 2522-2549, the
`action == 'update'` branch of `credit_default_list`): every snapshot of
the edited template whose `year_month` is at least the current month
(string comparison, i.e. `ymLe`) receives the new amount (together with
the USD fields) when the template amount changed, and the new card when
the template card changed.  `old_amount`/`old_card_type` are the template
values recorded before the save; `inst` is the saved template. -/
def propagateTemplateEdit (old_amount : Nat) (old_card_type : String)
    (inst : CreditDefault) (current_year_month : YM)
    (overrides : List (YM × DefaultChargeOverride)) :
    List (YM × DefaultChargeOverride) :=
  overrides.map fun r =>
    if ymLe current_year_month r.1 then
      let o := r.2
      let o := if old_amount ≠ inst.amount then
          { o with
            amount := inst.amount,
            is_usd := inst.is_usd,
            usd_amount := inst.usd_amount }
        else o
      let o := if old_card_type ≠ inst.card_type then
          { o with card_type := inst.card_type }
        else o
      (r.1, o)
    else r

/-- A concrete template as saved by a template edit: amount 2000 on the
VIEW card. -/
def editedTemplate : CreditDefault :=
  { id := 1, card_type := "item_6", amount := 2000, is_usd := false,
    usd_amount := none, payment_day := 1, is_active := true,
    apply_odd_months_only := false }

/-- A concrete snapshot previously edited by the user to amount 555
(differing from the template's prior amount 1000). -/
def userEditedSnapshot : DefaultChargeOverride :=
  { amount := 555, card_type := "item_6", is_split_payment := false,
    is_usd := false, usd_amount := none, purchase_date_override := none }

/-- The ineligible-gap test of `CreditEstimateForm.clean` (`forms.py`
lines 540-548), an `elif` chain over (month, day). -/
def inBonusInvalidPeriod (m d : Nat) : Bool :=
  decide ((m = 6 ∧ 6 ≤ d) ∨ (m = 7 ∧ d ≤ 5) ∨ (m = 11 ∧ 6 ≤ d) ∨ (m = 12 ∧ d ≤ 5))

/-- The data of a `CreditEstimateForm` submission as seen by validation:
the bound model fields plus the separate `is_usd` POST flag.  `amount` is
`none` when the field is empty (the widget enforces `min 0`, so a present
amount is a `Nat`). -/
structure CreditEstimateFormData where
  card_type : String
  amount : Option Nat
  purchase_date : Option CalDate
  is_split_payment : Bool
  is_bonus_payment : Bool
  is_usd : Bool
deriving DecidableEq, Repr

/-- The error list produced by `CreditEstimateForm.clean` (`forms.py`
lines 506-558).  A `raise ValidationError` aborts `clean`, so later checks
are skipped after the mutual-exclusion and card checks; `add_error` records
the error and continues.  `due_date` is not among the form's declared
fields, so `cleaned_data.get('due_date')` is always `None` and the bonus
check date is exactly `purchase_date`.  The amount check
`not is_usd and not amount and amount != 0` fires only for a missing
amount (`None`), since `amount == 0` is excluded explicitly. -/
def cleanErrors (f : CreditEstimateFormData) : List String :=
  let errs : List String :=
    if ¬ f.is_usd ∧ f.amount = none then ["amount is required"] else []
  if f.is_split_payment ∧ f.is_bonus_payment then
    errs ++ ["split and bonus cannot be combined"]
  else if (f.is_split_payment ∨ f.is_bonus_payment) ∧ f.card_type ≠ "item_6" then
    errs ++ ["split and bonus require the VIEW card"]
  else if f.is_bonus_payment then
    match f.purchase_date with
    | some d =>
        if inBonusInvalidPeriod d.month d.day then
          errs ++ ["outside the bonus windows"]
        else errs
    | none => errs ++ ["purchase date is required for bonus"]
  else errs

/-- Overall form validity: the `purchase_date` field is `required=True`
(`forms.py` line 485), and `clean` must produce no errors.  An invalid
form is never saved, so no record is written. -/
def formIsValid (f : CreditEstimateFormData) : Bool :=
  f.purchase_date.isSome && (cleanErrors f).isEmpty

/-- A persisted `CreditEstimate` row as consulted by the reflect action's
server-side recomputation (`views.py` lines 1822-1840). -/
structure CreditEstimateRec where
  card_type : String
  is_bonus_payment : Bool
  billing_month : Option YM
  due_date : Option CalDate
  amount : Nat
deriving DecidableEq, Repr

/-- The queryset filter of the reflect recomputation (`views.py`
lines 1823-1836): same card, same bonus flag, and the requested month
matched against `due_date`'s year and month for bonus entries or against
`billing_month` otherwise (a null `due_date` matches nothing). -/
def matchesReflect (card : String) (isBonus : Bool) (ym : YM)
    (e : CreditEstimateRec) : Bool :=
  decide (e.card_type = card) && decide (e.is_bonus_payment = isBonus) &&
    (if isBonus then
        match e.due_date with
        | some dd => decide (dd.year = ym.year) && decide (dd.month = ym.month)
        | none => false
      else decide (e.billing_month = some ym))

/-- Server-side manual subtotal (`views.py` lines 1838-1840): the sum of
the amounts of the matching `CreditEstimate` rows. -/
def serverManualTotal (estimates : List CreditEstimateRec) (card : String)
    (isBonus : Bool) (ym : YM) : Nat :=
  ((estimates.filter (matchesReflect card isBonus ym)).map
    (fun e => e.amount)).sum

/-- Server-side recurring subtotal (`views.py` lines 1842-1861): over the
active templates of the card, the override amount for the requested month
when a snapshot exists, else the template amount. -/
def serverRegularTotal (defaults : List CreditDefault) (overrides : OverrideMap)
    (card : String) (ym : YM) : Nat :=
  ((defaults.filter (fun d => decide (d.card_type = card) && d.is_active)).map
    (fun d =>
      match lookupOverride overrides (d.id, ym) with
      | some o => o.amount
      | none => d.amount)).sum

/-- The total handed to the monthly plan by the reflect action
(`views.py` lines 1806-1900): client-submitted subtotals are used verbatim
when both are present (no recomputation), the client-submitted
`total_amount` always wins when present, and a zero total is rejected
(`none` — nothing is written). -/
def reflectWrittenValue (client_manual client_default client_total : Option Nat)
    (estimates : List CreditEstimateRec) (defaults : List CreditDefault)
    (overrides : OverrideMap) (card : String) (isBonus : Bool) (ym : YM) :
    Option Nat :=
  let subtotals : Nat × Nat :=
    match client_manual, client_default with
    | some m, some d => (m, d)
    | _, _ => (serverManualTotal estimates card isBonus ym,
               serverRegularTotal defaults overrides card ym)
  let total_amount : Nat :=
    match client_total with
    | some t => t
    | none => subtotals.1 + subtotals.2
  if total_amount = 0 then none else some total_amount

/-- A concrete persisted estimate of 999 on the VIEW card billed 2025-03,
used to exhibit the reflect action ignoring the server aggregate. -/
def reflectEstimateExample : CreditEstimateRec :=
  { card_type := "item_6", is_bonus_payment := false,
    billing_month := some ⟨2025, 3⟩, due_date := none, amount := 999 }

/-- A concrete submission requesting split and bonus payment together. -/
def splitBonusForm : CreditEstimateFormData :=
  { card_type := "item_6", amount := some 30000,
    purchase_date := some ⟨2025, 1, 10⟩, is_split_payment := true,
    is_bonus_payment := true, is_usd := false }

theorem normalizeBM_of_le (y bm : Nat) (h : bm ≤ 12) : normalizeBM y bm = ⟨y, bm⟩ := by
  unfold normalizeBM
  simp [Nat.not_lt.mpr h]

theorem normalizeBM_of_gt (y bm : Nat) (h1 : 12 < bm) (h2 : bm ≤ 24) :
    normalizeBM y bm = ⟨y + 1, bm - 12⟩ := by
  rw [normalizeBM, dif_pos h1]
  exact normalizeBM_of_le (y + 1) (bm - 12) (by omega)

theorem normalizeBM_eq_addMonths (y m n : Nat) (h1 : 1 ≤ m) (h2 : m ≤ 12) (h3 : n ≤ 12) :
    normalizeBM y (m + n) = addMonths ⟨y, m⟩ n := by
  rcases le_or_lt (m + n) 12 with h | h
  · rw [normalizeBM_of_le y (m + n) h]
    have hlt : m - 1 + n < 12 := by omega
    simp only [addMonths, Nat.div_eq_of_lt hlt, Nat.mod_eq_of_lt hlt, YM.mk.injEq]
    omega
  · rw [normalizeBM_of_gt y (m + n) h (by omega)]
    have hdiv : (m - 1 + n) / 12 = 1 := by
      apply Nat.div_eq_of_lt_le <;> omega
    have hmod : (m - 1 + n) % 12 = m - 1 + n - 12 := by
      rw [Nat.mod_eq_sub_mod (by omega), Nat.mod_eq_of_lt (by omega)]
    simp only [addMonths, hdiv, hmod, YM.mk.injEq]
    refine ⟨trivial, ?_⟩
    clear hdiv hmod
    omega

theorem addMonths_normalizeBM (y bm : Nat) (h1 : 1 ≤ bm) (h2 : bm ≤ 14) :
    addMonths (normalizeBM y bm) 1 = normalizeBM y (bm + 1) := by
  interval_cases bm <;> simp [normalizeBM, addMonths]

theorem calculate_billing_month_eq (usage : YM) (cd? : Option MonthlyPlanDefault)
    (sp : Option Nat) :
    calculate_billing_month usage cd? sp =
      normalizeBM usage.year
        ((match cd? with
          | some cd => if cd.is_end_of_month then usage.month + 1 else usage.month + 2
          | none => usage.month + 1) + (if sp = some 2 then 1 else 0)) := by
  unfold calculate_billing_month
  rcases cd? with _ | cd
  · by_cases h : sp = some 2 <;> simp [h]
  · by_cases hE : cd.is_end_of_month <;> by_cases h : sp = some 2 <;> simp [hE, h]

/-- C1: for every usage month `m` (`1 ≤ month ≤ 12`) and every card policy,
`calculate_billing_month` yields `m + 1` month for an end-of-month closing
rule and `m + 2` months for a day-of-month closing rule, with correct year
rollover; in particular an `EndOfMonth` card maps usage month `2025-12` to
billing month `2026-01`, and a `DayOfMonth(5)` card maps `2025-01` to
`2025-03`. -/
theorem calculate_billing_month_offset (y m : Nat) (h1 : 1 ≤ m) (h2 : m ≤ 12)
    (cd : MonthlyPlanDefault) :
    (cd.is_end_of_month = true →
      calculate_billing_month ⟨y, m⟩ (some cd) none = addMonths ⟨y, m⟩ 1)
    ∧ (cd.is_end_of_month = false →
      calculate_billing_month ⟨y, m⟩ (some cd) none = addMonths ⟨y, m⟩ 2)
    ∧ calculate_billing_month ⟨2025, 12⟩ (some ⟨true, none⟩) none = ⟨2026, 1⟩
    ∧ calculate_billing_month ⟨2025, 1⟩ (some ⟨false, some 5⟩) none = ⟨2025, 3⟩ := by
  refine ⟨fun hE => ?_, fun hE => ?_, ?_, ?_⟩
  · rw [calculate_billing_month_eq]
    simp only [hE, if_true, reduceCtorEq, if_false, Nat.add_zero]
    exact normalizeBM_eq_addMonths y m 1 h1 h2 (by omega)
  · rw [calculate_billing_month_eq]
    simp only [hE, if_false, reduceCtorEq, Nat.add_zero]
    exact normalizeBM_eq_addMonths y m 2 h1 h2 (by omega)
  · simp [calculate_billing_month, normalizeBM]
  · simp [calculate_billing_month, normalizeBM]

/-- Witness for `calculate_billing_month_offset` at a concrete input:
an `EndOfMonth` card with usage month `2025-12`. -/
theorem calculate_billing_month_offset_witness :
    calculate_billing_month ⟨2025, 12⟩ (some ⟨true, none⟩) none
      = addMonths ⟨2025, 12⟩ 1 :=
  (calculate_billing_month_offset 2025 12 (by decide) (by decide) ⟨true, none⟩).1 rfl

/-- C6: for every usage month and every card policy (present or absent),
the billing month computed with `split_part = 2` is exactly one calendar
month after the billing month computed with `split_part = 1`, across year
boundaries. -/
theorem billing_month_split_part_two (y m : Nat) (h1 : 1 ≤ m) (h2 : m ≤ 12)
    (cd : Option MonthlyPlanDefault) :
    calculate_billing_month ⟨y, m⟩ cd (some 2)
      = addMonths (calculate_billing_month ⟨y, m⟩ cd (some 1)) 1 := by
  rw [calculate_billing_month_eq, calculate_billing_month_eq]
  rcases cd with _ | cd
  · simp only [reduceCtorEq]
    norm_num
    exact (addMonths_normalizeBM y (m + 1) (by omega) (by omega)).symm
  · by_cases hE : cd.is_end_of_month <;> simp only [hE, if_true, if_false] <;> norm_num
    · exact (addMonths_normalizeBM y (m + 1) (by omega) (by omega)).symm
    · exact (addMonths_normalizeBM y (m + 2) (by omega) (by omega)).symm

/-- Witness for `billing_month_split_part_two`: a `DayOfMonth(5)` card with
usage month `2025-11`, where the extra month crosses the year boundary. -/
theorem billing_month_split_part_two_witness :
    calculate_billing_month ⟨2025, 11⟩ (some ⟨false, some 5⟩) (some 2)
      = addMonths (calculate_billing_month ⟨2025, 11⟩ (some ⟨false, some 5⟩) (some 1)) 1 :=
  billing_month_split_part_two 2025 11 (by decide) (by decide) (some ⟨false, some 5⟩)

/-- C3: the split allocator computes
`second = floor(total / 2 / 100) * 100` and `first = total - second`, so
the two installments always sum to the total, the second installment is a
multiple of 100, and `splitAmount 20001 = (10001, 10000)`. -/
theorem splitAmount_spec (total : Nat) :
    (splitAmount total).2 = total / 2 / 100 * 100
    ∧ (splitAmount total).1 + (splitAmount total).2 = total
    ∧ (splitAmount total).2 % 100 = 0
    ∧ splitAmount 20001 = (10001, 10000) := by
  have hle : total / 2 / 100 * 100 ≤ total :=
    le_trans (Nat.div_mul_le_self (total / 2) 100) (Nat.div_le_self total 2)
  refine ⟨rfl, ?_, Nat.mul_mod_left _ _, by decide⟩
  simp only [splitAmount]
  omega

/-- C4: the bonus classifier is total on calendar dates and partitions them
into exactly four regions: December 6 through June 5 is eligible with
payment date August 4 (next year for December purchases, same year
otherwise) and billing month equal to that August; July 6 through
November 5 is eligible with payment date January 4 of the following year
and billing month that January; the two gaps June 6 through July 5 and
November 6 through December 5 are ineligible (both classifier functions
return `none`); moreover purchase date 2025-06-05 yields payment date
2025-08-04 and billing month 2025-08, while 2025-06-10 is ineligible. -/
theorem bonus_classifier_partition (y m d : Nat) (hm1 : 1 ≤ m) (hm2 : m ≤ 12)
    (hd1 : 1 ≤ d) (hd2 : d ≤ daysInMonth y m) :
    ((if inWinterWindow m d then 1 else 0) + (if inSummerWindow m d then 1 else 0)
      + (if inGapJun m d then 1 else 0) + (if inGapNov m d then 1 else 0) = 1)
    ∧ (inWinterWindow m d = true →
        get_bonus_due_date_from_purchase y m d = some ⟨if m = 12 then y + 1 else y, 8, 4⟩
        ∧ get_bonus_month_from_date y m d = some ⟨if m = 12 then y + 1 else y, 8⟩)
    ∧ (inSummerWindow m d = true →
        get_bonus_due_date_from_purchase y m d = some ⟨y + 1, 1, 4⟩
        ∧ get_bonus_month_from_date y m d = some ⟨y + 1, 1⟩)
    ∧ (inGapJun m d = true ∨ inGapNov m d = true →
        get_bonus_due_date_from_purchase y m d = none
        ∧ get_bonus_month_from_date y m d = none)
    ∧ get_bonus_due_date_from_purchase 2025 6 5 = some ⟨2025, 8, 4⟩
    ∧ get_bonus_month_from_date 2025 6 5 = some ⟨2025, 8⟩
    ∧ get_bonus_month_from_date 2025 6 10 = none := by
  refine ⟨?_, ?_, ?_, ?_, by decide, by decide, by decide⟩ <;>
    interval_cases m <;>
      simp [inWinterWindow, inSummerWindow, inGapJun, inGapNov,
        get_bonus_due_date_from_purchase, get_bonus_month_from_date] <;>
      first
        | omega
        | (split_ifs <;> omega)

/-- Witness for `bonus_classifier_partition` at purchase date 2025-06-05
(inside the winter window, on its last day). -/
theorem bonus_classifier_partition_witness :
    (if inWinterWindow 6 5 then 1 else 0) + (if inSummerWindow 6 5 then 1 else 0)
      + (if inGapJun 6 5 then 1 else 0) + (if inGapNov 6 5 then 1 else 0) = 1 :=
  (bonus_classifier_partition 2025 6 5 (by decide) (by decide) (by decide) (by decide)).1

/-- C5 counterexample: for a `DayOfMonth(5)` card, a non-bonus purchase
dated 2025-01-05 is stored with `year_month = 2024-12`, not the calendar
month 2025-01 in which the purchase physically occurred, refuting the
claim that the stored usage month always equals the purchase month. -/
theorem save_year_month_counterexample :
    save_year_month ⟨2025, 1, 5⟩ false (some ⟨false, some 5⟩) = ⟨2024, 12⟩
    ∧ save_year_month ⟨2025, 1, 5⟩ false (some ⟨false, some 5⟩) ≠ ⟨2025, 1⟩ := by
  decide

theorem save_usage_and_billing_eom (pd : CalDate) (cd : MonthlyPlanDefault)
    (hE : cd.is_end_of_month = true) :
    save_usage_and_billing pd (some cd)
      = (⟨pd.year, pd.month⟩, rollOverOnce pd.year (pd.month + 1)) := by
  simp [save_usage_and_billing, hE]

theorem save_usage_and_billing_nocd (pd : CalDate) (cd : MonthlyPlanDefault)
    (hE : cd.is_end_of_month = false) (hcd : cd.closing_day = none) :
    save_usage_and_billing pd (some cd)
      = (⟨pd.year, pd.month⟩, rollOverOnce pd.year (pd.month + 1)) := by
  simp [save_usage_and_billing, hE, hcd]

theorem save_usage_and_billing_dom (py pm pdy : Nat) (cd : MonthlyPlanDefault) (n : Nat)
    (hE : cd.is_end_of_month = false) (hcd : cd.closing_day = some n) (hn : 1 ≤ n) :
    save_usage_and_billing ⟨py, pm, pdy⟩ (some cd)
      = ((if (if pdy ≤ n then YM.mk py pm else rollOverOnce py (pm + 1)).month - 1 < 1 then
            YM.mk ((if pdy ≤ n then YM.mk py pm else rollOverOnce py (pm + 1)).year - 1) 12
          else
            YM.mk (if pdy ≤ n then YM.mk py pm else rollOverOnce py (pm + 1)).year
              ((if pdy ≤ n then YM.mk py pm else rollOverOnce py (pm + 1)).month - 1),
         rollOverOnce (if pdy ≤ n then YM.mk py pm else rollOverOnce py (pm + 1)).year
           ((if pdy ≤ n then YM.mk py pm else rollOverOnce py (pm + 1)).month + 1))) := by
  simp [save_usage_and_billing, hE, hcd, show n ≠ 0 by omega]

/-- C5 amended: the stored `year_month` equals the purchase month for bonus
entries, for cards with an end-of-month closing rule, and for cards without
a closing day (and for an unknown card); for a `DayOfMonth(n)` card it
equals the purchase month exactly when the purchase day is after the
closing day `n`, and equals the month before the purchase month when the
purchase day is at most `n`; the billing month is then derived from the
stored usage month as usage + 1 month (end-of-month) or usage + 2 months
(day-of-month). -/
theorem save_year_month_characterization (py pm pdy : Nat) (hy : 1 ≤ py)
    (hm1 : 1 ≤ pm) (hm2 : pm ≤ 12) :
    (∀ cd?, save_year_month ⟨py, pm, pdy⟩ true cd? = ⟨py, pm⟩)
    ∧ (save_usage_and_billing ⟨py, pm, pdy⟩ none).1 = ⟨py, pm⟩
    ∧ (∀ cd, cd.is_end_of_month = true →
        (save_usage_and_billing ⟨py, pm, pdy⟩ (some cd)).1 = ⟨py, pm⟩
        ∧ (save_usage_and_billing ⟨py, pm, pdy⟩ (some cd)).2
            = addMonths (save_usage_and_billing ⟨py, pm, pdy⟩ (some cd)).1 1)
    ∧ (∀ cd, cd.is_end_of_month = false → cd.closing_day = none →
        (save_usage_and_billing ⟨py, pm, pdy⟩ (some cd)).1 = ⟨py, pm⟩)
    ∧ (∀ cd n, cd.is_end_of_month = false → cd.closing_day = some n → 1 ≤ n →
        (n < pdy → (save_usage_and_billing ⟨py, pm, pdy⟩ (some cd)).1 = ⟨py, pm⟩)
        ∧ (pdy ≤ n →
            (save_usage_and_billing ⟨py, pm, pdy⟩ (some cd)).1
              = if pm = 1 then ⟨py - 1, 12⟩ else ⟨py, pm - 1⟩)
        ∧ (save_usage_and_billing ⟨py, pm, pdy⟩ (some cd)).2
            = addMonths (save_usage_and_billing ⟨py, pm, pdy⟩ (some cd)).1 2) := by
  refine ⟨fun cd? => rfl, rfl, fun cd hE => ?_, fun cd hE hcd => ?_, fun cd n hE hcd hn => ?_⟩
  · rw [save_usage_and_billing_eom ⟨py, pm, pdy⟩ cd hE]
    refine ⟨rfl, ?_⟩
    interval_cases pm <;> simp [rollOverOnce, addMonths]
  · rw [save_usage_and_billing_nocd ⟨py, pm, pdy⟩ cd hE hcd]
  · rw [save_usage_and_billing_dom py pm pdy cd n hE hcd hn]
    refine ⟨fun hday => ?_, fun hday => ?_, ?_⟩
    · have hd : ¬ pdy ≤ n := by omega
      simp only [if_neg hd]
      interval_cases pm <;> simp [rollOverOnce]
    · simp only [if_pos hday]
      interval_cases pm <;> simp [rollOverOnce]
    · by_cases hday : pdy ≤ n
      · simp only [if_pos hday]
        interval_cases pm <;> simp [rollOverOnce, addMonths, YM.mk.injEq] <;> omega
      · simp only [if_neg hday]
        interval_cases pm <;> simp [rollOverOnce, addMonths, YM.mk.injEq]

/-- Witness for `save_year_month_characterization`: a `DayOfMonth(5)` card
and purchase date 2025-01-05, exercising the day-of-month branch. -/
theorem save_year_month_characterization_witness :
    (save_usage_and_billing ⟨2025, 1, 5⟩ (some ⟨false, some 5⟩)).1
      = if (1 : Nat) = 1 then ⟨2025 - 1, 12⟩ else ⟨2025, 1 - 1⟩ :=
  (((save_year_month_characterization 2025 1 5 (by decide) (by decide)
      (by decide)).2.2.2.2 ⟨false, some 5⟩ 5 rfl rfl (by decide)).2.1 (by decide))

/-- C10: the three independent implementations of the split rule — the
purchase-save path (`forms.py`), the future recurring-entry display path
(`DefaultEntry`), and the past recurring-entry display path
(`DefaultEstimate`) — compute identical (first, second) installment pairs
for every total amount. -/
theorem split_implementations_agree (total : Nat) :
    (defaultEntrySplitAmount total 1, defaultEntrySplitAmount total 2) = splitAmount total
    ∧ (defaultEstimateSplitAmount total 1, defaultEstimateSplitAmount total 2)
        = splitAmount total := by
  constructor <;> simp [splitAmount, defaultEntrySplitAmount, defaultEstimateSplitAmount]

theorem lookupOverride_cons_self (k : Nat × YM) (v : DefaultChargeOverride)
    (m : OverrideMap) : lookupOverride ((k, v) :: m) k = some v := by
  simp [lookupOverride]

theorem lookupOverride_none_iff (m : OverrideMap) (k : Nat × YM) :
    lookupOverride m k = none ↔ k ∉ m.map Prod.fst := by
  induction m with
  | nil => simp [lookupOverride]
  | cons kv rest ih =>
    simp only [lookupOverride, List.map_cons, List.mem_cons]
    by_cases h : kv.1 = k
    · simp [h]
    · rw [if_neg h, ih]
      have h2 : ¬ k = kv.1 := fun he => h he.symm
      simp [h2]

/-- C7: snapshot materialization is idempotent — re-materializing the same
(template, usage-month) pair changes nothing; the first materialization
copies the template's current amount and card into the new snapshot; an
existing snapshot is never overwritten by the seeding step; and
materialization preserves uniqueness of the (template, usage-month) key. -/
theorem materialize_snapshot_idempotent (d : CreditDefault) (ym : YM) (m : OverrideMap) :
    materializeOverride d ym (materializeOverride d ym m) = materializeOverride d ym m
    ∧ (lookupOverride m (d.id, ym) = none →
        lookupOverride (materializeOverride d ym m) (d.id, ym) = some (seedOverride d)
        ∧ (seedOverride d).amount = d.amount
        ∧ (seedOverride d).card_type = d.card_type)
    ∧ (∀ s, lookupOverride m (d.id, ym) = some s →
        materializeOverride d ym m = m)
    ∧ ((m.map Prod.fst).Nodup → ((materializeOverride d ym m).map Prod.fst).Nodup) := by
  cases h : lookupOverride m (d.id, ym) with
  | some s =>
    have hm : materializeOverride d ym m = m := by
      unfold materializeOverride
      rw [h]
    refine ⟨?_, ?_, ?_, ?_⟩
    · rw [hm, hm]
    · intro h0; simp [h] at h0
    · intro s0 h0; exact hm
    · intro hnd; rw [hm]; exact hnd
  | none =>
    have hm : materializeOverride d ym m = ((d.id, ym), seedOverride d) :: m := by
      unfold materializeOverride
      rw [h]
    refine ⟨?_, ?_, ?_, ?_⟩
    · rw [hm]
      unfold materializeOverride
      rw [lookupOverride_cons_self, ← hm]
    · intro _
      rw [hm]
      exact ⟨lookupOverride_cons_self _ _ _, rfl, rfl⟩
    · intro s0 h0; simp [h] at h0
    · intro hnd
      rw [hm]
      simp only [List.map_cons, List.nodup_cons]
      exact ⟨(lookupOverride_none_iff m (d.id, ym)).mp h, hnd⟩

/-- Witness for `materialize_snapshot_idempotent`: a concrete template and
an empty snapshot table; the first materialization stores the seeded
snapshot. -/
theorem materialize_snapshot_idempotent_witness :
    lookupOverride (materializeOverride editedTemplate ⟨2025, 2⟩ [])
        (editedTemplate.id, ⟨2025, 2⟩) = some (seedOverride editedTemplate)
      ∧ (seedOverride editedTemplate).amount = editedTemplate.amount
      ∧ (seedOverride editedTemplate).card_type = editedTemplate.card_type :=
  (materialize_snapshot_idempotent editedTemplate ⟨2025, 2⟩ []).2.1 rfl

/-- C2 counterexample: a snapshot for a future month (2025-03, current
month 2025-01) that the user previously edited to amount 555 — differing
from the template's prior amount 1000 — nevertheless has its amount
overwritten to 2000 by a template-level edit, refuting the claim that
user-edited snapshots are left unchanged. -/
theorem template_edit_overwrites_edited_snapshot :
    (propagateTemplateEdit 1000 "item_6" editedTemplate ⟨2025, 1⟩
        [(⟨2025, 3⟩, userEditedSnapshot)]).map (fun r => r.2.amount) = [2000]
    ∧ userEditedSnapshot.amount = 555
    ∧ (2000 : Nat) ≠ 555 := by
  decide

/-- C2 amended: a template-level edit propagates to exactly the snapshots
whose usage month is at least the current calendar month (compared as
`YYYY-MM` strings), regardless of whether they were previously edited by
the user and regardless of the charge's `payment_day`: such a snapshot
receives the new amount when the template amount changed and the new card
when the template card changed (its other fields are untouched), while
every snapshot of a strictly earlier month is left completely unchanged. -/
theorem propagate_updates_future_rows (oldA : Nat) (oldC : String)
    (inst : CreditDefault) (cur : YM) (rows : List (YM × DefaultChargeOverride))
    (i : Nat) (h : i < rows.length)
    (h' : i < (propagateTemplateEdit oldA oldC inst cur rows).length) :
    (ymLe cur (rows.get ⟨i, h⟩).1 = false →
      (propagateTemplateEdit oldA oldC inst cur rows).get ⟨i, h'⟩ = rows.get ⟨i, h⟩)
    ∧ (ymLe cur (rows.get ⟨i, h⟩).1 = true →
      ((propagateTemplateEdit oldA oldC inst cur rows).get ⟨i, h'⟩).1
          = (rows.get ⟨i, h⟩).1
      ∧ ((propagateTemplateEdit oldA oldC inst cur rows).get ⟨i, h'⟩).2.amount
          = (if oldA = inst.amount then (rows.get ⟨i, h⟩).2.amount else inst.amount)
      ∧ ((propagateTemplateEdit oldA oldC inst cur rows).get ⟨i, h'⟩).2.card_type
          = (if oldC = inst.card_type then (rows.get ⟨i, h⟩).2.card_type
              else inst.card_type)
      ∧ ((propagateTemplateEdit oldA oldC inst cur rows).get ⟨i, h'⟩).2.is_split_payment
          = (rows.get ⟨i, h⟩).2.is_split_payment
      ∧ ((propagateTemplateEdit oldA oldC inst cur rows).get ⟨i, h'⟩).2.purchase_date_override
          = (rows.get ⟨i, h⟩).2.purchase_date_override) := by
  simp only [propagateTemplateEdit, List.get_eq_getElem, List.getElem_map]
  by_cases hy : ymLe cur rows[i].1
  · simp only [hy, if_true]
    refine ⟨fun h0 => ?_, fun _ => ?_⟩
    · exact absurd h0 (by decide)
    · by_cases ha : oldA = inst.amount <;> by_cases hc : oldC = inst.card_type <;>
        simp [ha, hc]
  · simp only [Bool.not_eq_true] at hy
    simp only [hy, Bool.false_eq_true, if_false]
    refine ⟨fun _ => trivial, fun h0 => ?_⟩
    exact absurd h0 (by decide)

/-- Witness for `propagate_updates_future_rows`: a past-month snapshot
(2024-12 with current month 2025-01) is unchanged by the template edit. -/
theorem propagate_updates_future_rows_witness :
    (propagateTemplateEdit 1000 "item_6" editedTemplate ⟨2025, 1⟩
        [(⟨2024, 12⟩, userEditedSnapshot)]).get ⟨0, by decide⟩
      = (⟨2024, 12⟩, userEditedSnapshot) :=
  (propagate_updates_future_rows 1000 "item_6" editedTemplate ⟨2025, 1⟩
      [(⟨2024, 12⟩, userEditedSnapshot)] 0 (by decide) (by decide)).1 (by decide)

theorem isEmpty_append_cons (l1 : List String) (a : String) (l2 : List String) :
    (l1 ++ a :: l2).isEmpty = false := by
  cases l1 <;> rfl

theorem formIsValid_false_of_errors (f : CreditEstimateFormData)
    (h : (cleanErrors f).isEmpty = false) : formIsValid f = false := by
  simp [formIsValid, h]

/-- C8: a purchase create/edit request fails validation (so no record is
written) whenever the split and bonus flags are both set, whenever split
or bonus is requested on a card other than the VIEW card, whenever a
bonus-flagged entry is dated inside one of the two ineligible gap windows,
whenever a bonus-flagged entry has no purchase date, and whenever the
amount is missing on a non-USD entry. -/
theorem clean_validation_errors (f : CreditEstimateFormData) :
    (f.is_split_payment = true → f.is_bonus_payment = true → formIsValid f = false)
    ∧ ((f.is_split_payment = true ∨ f.is_bonus_payment = true) →
        f.card_type ≠ "item_6" → formIsValid f = false)
    ∧ (∀ d, f.is_bonus_payment = true → f.purchase_date = some d →
        inBonusInvalidPeriod d.month d.day = true → formIsValid f = false)
    ∧ (f.is_bonus_payment = true → f.purchase_date = none → formIsValid f = false)
    ∧ (f.is_usd = false → f.amount = none → formIsValid f = false) := by
  refine ⟨fun h1 h2 => ?_, fun h1 h2 => ?_, fun d h1 h2 h3 => ?_,
    fun h1 h2 => ?_, fun h1 h2 => ?_⟩
  · apply formIsValid_false_of_errors
    simp only [cleanErrors]
    rw [if_pos ⟨h1, h2⟩]
    exact isEmpty_append_cons _ _ _
  · apply formIsValid_false_of_errors
    simp only [cleanErrors]
    by_cases h12 : f.is_split_payment = true ∧ f.is_bonus_payment = true
    · rw [if_pos h12]
      exact isEmpty_append_cons _ _ _
    · rw [if_neg h12, if_pos ⟨h1, h2⟩]
      exact isEmpty_append_cons _ _ _
  · apply formIsValid_false_of_errors
    simp only [cleanErrors]
    by_cases h12 : f.is_split_payment = true ∧ f.is_bonus_payment = true
    · rw [if_pos h12]
      exact isEmpty_append_cons _ _ _
    · rw [if_neg h12]
      by_cases hc : f.card_type = "item_6"
      · rw [if_neg (fun hh => hh.2 hc), if_pos h1, h2]
        dsimp only
        rw [if_pos h3]
        exact isEmpty_append_cons _ _ _
      · rw [if_pos ⟨Or.inr h1, hc⟩]
        exact isEmpty_append_cons _ _ _
  · simp [formIsValid, h2]
  · apply formIsValid_false_of_errors
    simp only [cleanErrors]
    rw [if_pos (show ¬ f.is_usd ∧ f.amount = none from ⟨by simp [h1], h2⟩)]
    cases hp : f.purchase_date <;> dsimp only <;> split_ifs <;> rfl

/-- Witness for `clean_validation_errors`: a form requesting split and
bonus payment together is invalid. -/
theorem clean_validation_errors_witness : formIsValid splitBonusForm = false :=
  (clean_validation_errors splitBonusForm).1 rfl rfl

/-- C9 counterexample: a reflect request for (2025-03, VIEW card) carrying
a client-submitted `total_amount` of 123 writes 123 into the monthly plan
even though the server-side aggregate of matching records is 999, refuting
the claim that the written value always equals the server-side aggregate. -/
theorem reflect_uses_client_total :
    reflectWrittenValue (some 1) (some 2) (some 123) [reflectEstimateExample] [] []
        "item_6" false ⟨2025, 3⟩ = some 123
    ∧ serverManualTotal [reflectEstimateExample] "item_6" false ⟨2025, 3⟩
        + serverRegularTotal [] [] "item_6" ⟨2025, 3⟩ = 999
    ∧ (123 : Nat) ≠ 999 := by
  decide

/-- C9 amended: the value written by the reflect action equals the
client-submitted `total_amount` whenever one accompanies the request (with
a zero total rejected and nothing written); when no total is submitted but
both client subtotals are, their sum is written; only when the total is
absent and at least one subtotal is missing does the engine recompute,
writing the server-side aggregate of matching manual purchases plus
recurring-charge snapshot amounts (again rejecting a zero result). -/
theorem reflect_total_characterization (cm cdf ct : Option Nat)
    (estimates : List CreditEstimateRec) (defaults : List CreditDefault)
    (overrides : OverrideMap) (card : String) (isBonus : Bool) (ym : YM) :
    (∀ t, ct = some t → t ≠ 0 →
      reflectWrittenValue cm cdf ct estimates defaults overrides card isBonus ym
        = some t)
    ∧ (ct = some 0 →
      reflectWrittenValue cm cdf ct estimates defaults overrides card isBonus ym
        = none)
    ∧ (∀ m dfl, ct = none → cm = some m → cdf = some dfl → m + dfl ≠ 0 →
      reflectWrittenValue cm cdf ct estimates defaults overrides card isBonus ym
        = some (m + dfl))
    ∧ (ct = none → (cm = none ∨ cdf = none) →
      reflectWrittenValue cm cdf ct estimates defaults overrides card isBonus ym
        = (if serverManualTotal estimates card isBonus ym
              + serverRegularTotal defaults overrides card ym = 0 then none
            else some (serverManualTotal estimates card isBonus ym
              + serverRegularTotal defaults overrides card ym))) := by
  refine ⟨fun t hct ht => ?_, fun hct => ?_, fun m dfl hct hcm hcd h0 => ?_,
    fun hct hor => ?_⟩
  · subst hct
    simp [reflectWrittenValue, ht]
  · subst hct
    simp [reflectWrittenValue]
  · subst hct; subst hcm; subst hcd
    simp [reflectWrittenValue, h0]
  · subst hct
    rcases hor with h | h
    · subst h
      cases cdf <;> simp [reflectWrittenValue]
    · subst h
      cases cm <;> simp [reflectWrittenValue]

/-- Witness for `reflect_total_characterization`: with a client total of
123 the written value is 123. -/
theorem reflect_total_characterization_witness :
    reflectWrittenValue (some 1) (some 2) (some 123) [reflectEstimateExample] [] []
        "item_6" false ⟨2025, 3⟩ = some 123 :=
  (reflect_total_characterization (some 1) (some 2) (some 123)
      [reflectEstimateExample] [] [] "item_6" false ⟨2025, 3⟩).1 123 rfl (by decide)

end BudgetApp
